import Mathlib

/-!
Verification of the medical chatbot backend (`main.py` + `db.py`).

The persistence layer is modelled as an explicit in-memory store `DB`
holding the two tables (`chat_sessions`, `chat_messages`) as lists in
insertion order.  Row identifiers and creation timestamps, generated by
`uuid.uuid4()` and `datetime.utcnow()` in the source, are passed in as
explicit parameters.  The external generation provider (Groq) is modelled
by passing its outcome for each outbound call as a parameter: `none`
stands for a raised provider exception, `some s` for a completion whose
text is `s`.  Each handler additionally returns the list of provider
calls it issued, so that "no provider call is made" is a provable fact.
-/

/-- Row of the `chat_sessions` table (`db.py`, class `ChatSession`). -/
structure ChatSession where
  id : String
  title : String
  created_at : Nat
  deriving DecidableEq, Repr

/-- Row of the `chat_messages` table (`db.py`, class `ChatMessage`). -/
structure ChatMessage where
  id : String
  session_id : String
  role : String
  content : String
  created_at : Nat
  deriving DecidableEq, Repr

/-- The relational store: both tables, rows in insertion order. -/
structure DB where
  sessions : List ChatSession
  messages : List ChatMessage
  deriving DecidableEq, Repr

/-! ### Python string primitives used by the handlers -/

/-- The characters Python's argument-free `str.strip` / `str.split` treat
as whitespace. -/
def isPySpace (c : Char) : Bool :=
  c == ' ' || c == '\t' || c == '\n' || c == '\r' || c == '\x0b' || c == '\x0c'

/-- Python `str.strip()`: drop leading and trailing whitespace. -/
def pyStrip (s : String) : String :=
  ⟨((s.data.dropWhile isPySpace).reverse.dropWhile isPySpace).reverse⟩

/-- Python `str.lower()` (ASCII case folding, which is all the handlers
compare against). -/
def pyLower (s : String) : String :=
  ⟨s.data.map Char.toLower⟩

/-- Python `s.split("\n")[0]`: the prefix of `s` before the first newline. -/
def firstLine (s : String) : String :=
  ⟨s.data.takeWhile (fun c => c ≠ '\n')⟩

/-- Helper for `pySplit`: accumulates the current word (reversed) while
scanning the characters. -/
def pySplitAux : List Char → List Char → List String
  | [], acc => if acc.isEmpty then [] else [⟨acc.reverse⟩]
  | c :: cs, acc =>
    if isPySpace c then
      if acc.isEmpty then pySplitAux cs [] else ⟨acc.reverse⟩ :: pySplitAux cs []
    else pySplitAux cs (c :: acc)

/-- Python argument-free `str.split()`: whitespace-separated words, empty
strings discarded. -/
def pySplit (s : String) : List String :=
  pySplitAux s.data []

/-- Python `" ".join(ws)`. -/
def joinSpace : List String → String
  | [] => ""
  | [w] => w
  | w :: ws => w ++ " " ++ joinSpace ws

/-! ### Persistence layer (`db.py`) -/

/-- `db.py` `create_session`: insert a new session row.  The generated
uuid and timestamp are passed in as `newId` and `now`. -/
def create_session (db : DB) (title : String) (newId : String) (now : Nat) :
    DB × ChatSession :=
  let sess : ChatSession := ⟨newId, title, now⟩
  ({ db with sessions := db.sessions ++ [sess] }, sess)

/-- `db.py` `get_session`: first row whose id matches, or an absence
signal (`first()` returns `None`). -/
def get_session (db : DB) (session_id : String) : Option ChatSession :=
  db.sessions.find? (fun s => s.id == session_id)

/-- Overwrite the title of the first session row whose id matches
(the ORM mutates exactly the row object returned by `first()`). -/
def setTitleFirst (session_id title : String) : List ChatSession → List ChatSession
  | [] => []
  | s :: ss =>
    if s.id == session_id then { s with title := title } :: ss
    else s :: setTitleFirst session_id title ss

/-- `db.py` `update_session_title`: absence signal when the id is
unknown, otherwise overwrite the title and return the updated row. -/
def update_session_title (db : DB) (session_id title : String) :
    DB × Option ChatSession :=
  match get_session db session_id with
  | none => (db, none)
  | some sess =>
      ({ db with sessions := setTitleFirst session_id title db.sessions },
       some { sess with title := title })

/-- `db.py` `add_message`: insert a new message row (generated uuid and
timestamp passed in). -/
def add_message (db : DB) (session_id role content newId : String) (now : Nat) :
    DB × ChatMessage :=
  let msg : ChatMessage := ⟨newId, session_id, role, content, now⟩
  ({ db with messages := db.messages ++ [msg] }, msg)

/-- `ORDER BY created_at` comparison on message rows. -/
def msgLE (a b : ChatMessage) : Prop :=
  a.created_at ≤ b.created_at

instance : DecidableRel msgLE := fun a b => Nat.decLe a.created_at b.created_at

instance : IsTotal ChatMessage msgLE :=
  ⟨fun a b => Nat.le_total a.created_at b.created_at⟩

instance : IsTrans ChatMessage msgLE :=
  ⟨fun _ _ _ hab hbc => Nat.le_trans hab hbc⟩

/-- `db.py` `get_messages`: all messages of the session ordered by
creation timestamp ascending. -/
def get_messages (db : DB) (session_id : String) : List ChatMessage :=
  List.insertionSort msgLE (db.messages.filter (fun m => m.session_id == session_id))

/-! ### Handler layer (`main.py`) -/

/-- The synthesized assistant welcome message of `api_new_session`. -/
def welcome_text : String :=
  "👋 Hello! I'm your AI medical assistant. Ask me about symptoms, recovery, or health tips."

/-- `main.py` `call_llm_for_title`, with the provider call abstracted:
`raw` is the completion text the provider returned; the function is the
post-processing applied to it (strip, first line, at most four words). -/
def call_llm_for_title (raw : String) : String :=
  let title := pyStrip raw
  let title := pyStrip (firstLine title)
  let words := pySplit title
  if words.length > 4 then joinSpace (words.take 4) else title

/-- One outbound provider call issued by `api_send_message`. -/
inductive PCall where
  | reply (user_message : String)
  | titleGen (first_user_message : String)
  deriving DecidableEq, Repr

/-- Outcome of `api_send_message`: HTTP 404, an unhandled provider
exception (HTTP 500-class), or the JSON response `{assistant, session_id}`. -/
inductive SendResult where
  | notFound
  | providerError
  | ok (assistant : String) (session_id : String)
  deriving DecidableEq, Repr

/-- Environment of one `api_send_message` request: the provider outcomes
and the generated ids and timestamps for the two inserted messages. -/
structure SendEnv where
  replyResult : Option String
  titleResult : Option String
  userMsgId : String
  asstMsgId : String
  userTime : Nat
  asstTime : Nat
  deriving DecidableEq, Repr

/-- The branch condition of the auto-titling path in `api_send_message`:
`if not sess.title or sess.title.strip().lower() == "new chat"`. -/
def titleCond (title : String) : Bool :=
  (title == "") || (pyLower (pyStrip title) == "new chat")

/-- The scan `for m in msgs: if m.role == "user": first_user = m.content; break`. -/
def firstUserContent (msgs : List ChatMessage) : Option String :=
  (msgs.find? (fun m => m.role == "user")).map ChatMessage.content

/-- The auto-titling block of `api_send_message` (lines 208-224): run on
the store after both messages were inserted; returns the updated store
and the provider calls issued.  A `titleResult` of `none` is the
swallowed provider exception; an empty post-processed title is ignored. -/
def titlePath (db : DB) (session_id : String) (sessTitle : String)
    (titleResult : Option String) : DB × List PCall :=
  if titleCond sessTitle then
    match firstUserContent (get_messages db session_id) with
    | none => (db, [])
    | some fu =>
      if fu == "" then (db, [])
      else
        match titleResult with
        | none => (db, [PCall.titleGen fu])
        | some raw =>
          if call_llm_for_title raw == "" then (db, [PCall.titleGen fu])
          else ((update_session_title db session_id (call_llm_for_title raw)).1,
                [PCall.titleGen fu])
  else (db, [])

/-- `main.py` `api_send_message`: 404 when the session is unknown;
otherwise insert the user message, call the provider (an exception
propagates), insert the assistant message, run the auto-titling path,
and return `{assistant, session_id}`. -/
def api_send_message (db : DB) (session_id message : String) (env : SendEnv) :
    DB × SendResult × List PCall :=
  match get_session db session_id with
  | none => (db, SendResult.notFound, [])
  | some sess =>
    let db1 := (add_message db session_id "user" message env.userMsgId env.userTime).1
    match env.replyResult with
    | none => (db1, SendResult.providerError, [PCall.reply message])
    | some assistant_text =>
      let db2 := (add_message db1 session_id "assistant" assistant_text
        env.asstMsgId env.asstTime).1
      let tp := titlePath db2 session_id sess.title env.titleResult
      (tp.1, SendResult.ok assistant_text session_id, PCall.reply message :: tp.2)

/-- `main.py` `api_new_session`: create a session titled "New Chat",
insert the welcome assistant message, return `{session_id, title}`. -/
def api_new_session (db : DB) (sessId msgId : String) (sessTime msgTime : Nat) :
    DB × (String × String) :=
  let r := create_session db "New Chat" sessId sessTime
  let db2 := (add_message r.1 r.2.id "assistant" welcome_text msgId msgTime).1
  (db2, (r.2.id, r.2.title))

/-- `main.py` `api_messages`: 404 (`none`) when the session is unknown,
otherwise the session's messages in chronological order. -/
def api_messages (db : DB) (session_id : String) : Option (List ChatMessage) :=
  match get_session db session_id with
  | none => none
  | some _ => some (get_messages db session_id)

/-- The store as it stands inside `api_send_message` right after the user
and assistant messages were inserted (lines 203-207), i.e. the store the
auto-titling path operates on. -/
def dbAfterMessages (db : DB) (sid msg reply : String) (env : SendEnv) : DB :=
  (add_message ((add_message db sid "user" msg env.userMsgId env.userTime).1)
    sid "assistant" reply env.asstMsgId env.asstTime).1

/-! ### Structural lemmas -/

theorem add_message_sessions (db : DB) (sid role content newId : String) (now : Nat) :
    (add_message db sid role content newId now).1.sessions = db.sessions := rfl

theorem add_message_messages (db : DB) (sid role content newId : String) (now : Nat) :
    (add_message db sid role content newId now).1.messages
      = db.messages ++ [⟨newId, sid, role, content, now⟩] := rfl

theorem update_session_title_messages (db : DB) (sid t : String) :
    (update_session_title db sid t).1.messages = db.messages := by
  unfold update_session_title
  rcases hg : get_session db sid with _ | sess <;> simp [hg]

theorem titlePath_messages (db : DB) (sid t : String) (r : Option String) :
    (titlePath db sid t r).1.messages = db.messages := by
  unfold titlePath
  repeat' split
  all_goals simp [update_session_title_messages]

theorem titlePath_not_cond (db : DB) (sid t : String) (r : Option String)
    (h : titleCond t = false) : titlePath db sid t r = (db, []) := by
  simp [titlePath, h]

theorem titlePath_none_db (db : DB) (sid t : String) :
    (titlePath db sid t none).1 = db := by
  unfold titlePath
  repeat' split
  all_goals simp_all

theorem titlePath_empty_title_db (db : DB) (sid t raw : String)
    (h : call_llm_for_title raw = "") :
    (titlePath db sid t (some raw)).1 = db := by
  unfold titlePath
  repeat' split
  all_goals simp_all

/-! ### Send message: primary path (C1), unknown session (C2) -/

theorem send_message_messages_eq (db : DB) (sid msg : String) (env : SendEnv)
    (sess : ChatSession) (h : get_session db sid = some sess)
    (reply : String) (hr : env.replyResult = some reply) :
    (api_send_message db sid msg env).1.messages
        = db.messages ++ [⟨env.userMsgId, sid, "user", msg, env.userTime⟩,
                          ⟨env.asstMsgId, sid, "assistant", reply, env.asstTime⟩] := by
  unfold api_send_message
  simp [h, hr, titlePath_messages, add_message]

theorem send_message_result_eq (db : DB) (sid msg : String) (env : SendEnv)
    (sess : ChatSession) (h : get_session db sid = some sess)
    (reply : String) (hr : env.replyResult = some reply) :
    (api_send_message db sid msg env).2.1 = SendResult.ok reply sid := by
  unfold api_send_message
  simp [h, hr]

/-- C1: for every existing session, a send-message call whose
reply-generation call succeeds appends exactly two new messages to the
store, in order — first the user message with the caller's text, then
the assistant message with the generated reply — and returns the
generated reply together with the session id. -/
theorem send_message_appends_two (db : DB) (sid msg : String) (env : SendEnv)
    (sess : ChatSession) (h : get_session db sid = some sess)
    (reply : String) (hr : env.replyResult = some reply) :
    (api_send_message db sid msg env).1.messages
        = db.messages ++ [⟨env.userMsgId, sid, "user", msg, env.userTime⟩,
                          ⟨env.asstMsgId, sid, "assistant", reply, env.asstTime⟩] ∧
    (api_send_message db sid msg env).2.1 = SendResult.ok reply sid :=
  ⟨send_message_messages_eq db sid msg env sess h reply hr,
   send_message_result_eq db sid msg env sess h reply hr⟩

theorem send_message_appends_two_witness :
    (api_send_message ⟨[⟨"s1", "New Chat", 0⟩], []⟩ "s1" "hello"
        ⟨some "hi", none, "u1", "a1", 1, 2⟩).1.messages
      = [⟨"u1", "s1", "user", "hello", 1⟩, ⟨"a1", "s1", "assistant", "hi", 2⟩] ∧
    (api_send_message ⟨[⟨"s1", "New Chat", 0⟩], []⟩ "s1" "hello"
        ⟨some "hi", none, "u1", "a1", 1, 2⟩).2.1 = SendResult.ok "hi" "s1" := by
  have h := send_message_appends_two ⟨[⟨"s1", "New Chat", 0⟩], []⟩ "s1" "hello"
    ⟨some "hi", none, "u1", "a1", 1, 2⟩ ⟨"s1", "New Chat", 0⟩ rfl "hi" rfl
  simpa using h

/-- C2: a send-message call on a session id that does not exist returns
the not-found signal, leaves the store unchanged, and issues no provider
call. -/
theorem send_message_unknown_session (db : DB) (sid msg : String) (env : SendEnv)
    (h : get_session db sid = none) :
    api_send_message db sid msg env = (db, SendResult.notFound, []) := by
  simp [api_send_message, h]

theorem send_message_unknown_session_witness :
    api_send_message ⟨[], []⟩ "nope" "hi" ⟨some "x", none, "u", "a", 0, 0⟩
      = (⟨[], []⟩, SendResult.notFound, []) :=
  send_message_unknown_session ⟨[], []⟩ "nope" "hi" ⟨some "x", none, "u", "a", 0, 0⟩ rfl

/-! ### Title generation is invisible in the response (C4) -/

/-- C4: when reply generation succeeds on an existing session, the
response is `{assistant: reply, session_id}` whatever the title path
does; a provider exception during title generation is swallowed and an
empty post-processed title causes no title update — in both cases the
sessions table is untouched. -/
theorem send_message_result_independent_of_titling (db : DB) (sid msg : String)
    (env : SendEnv) (sess : ChatSession) (h : get_session db sid = some sess)
    (reply : String) (hr : env.replyResult = some reply) :
    ((api_send_message db sid msg env).2.1 = SendResult.ok reply sid) ∧
    (env.titleResult = none →
      (api_send_message db sid msg env).1.sessions = db.sessions) ∧
    (∀ raw, env.titleResult = some raw → call_llm_for_title raw = "" →
      (api_send_message db sid msg env).1.sessions = db.sessions) := by
  unfold api_send_message
  refine ⟨?_, ?_, ?_⟩
  · simp [h, hr]
  · intro ht
    simp [h, hr, ht, titlePath_none_db, add_message]
  · intro raw ht he
    simp [h, hr, ht, titlePath_empty_title_db _ _ _ _ he, add_message]

theorem send_message_result_independent_witness :
    ((api_send_message ⟨[⟨"s2", "Fever Help", 7⟩], []⟩ "s2" "hi"
        ⟨some "ok", none, "u2", "a2", 8, 9⟩).2.1 = SendResult.ok "ok" "s2") ∧
    ((api_send_message ⟨[⟨"s2", "Fever Help", 7⟩], []⟩ "s2" "hi"
        ⟨some "ok", none, "u2", "a2", 8, 9⟩).1.sessions = [⟨"s2", "Fever Help", 7⟩]) :=
  And.intro
    (send_message_result_independent_of_titling ⟨[⟨"s2", "Fever Help", 7⟩], []⟩
      "s2" "hi" ⟨some "ok", none, "u2", "a2", 8, 9⟩ ⟨"s2", "Fever Help", 7⟩ rfl
      "ok" rfl).1
    ((send_message_result_independent_of_titling ⟨[⟨"s2", "Fever Help", 7⟩], []⟩
      "s2" "hi" ⟨some "ok", none, "u2", "a2", 8, 9⟩ ⟨"s2", "Fever Help", 7⟩ rfl
      "ok" rfl).2.1 rfl)

/-! ### Non-placeholder titles are never changed (C6, amended) -/

/-- C6 (amended): for every session whose title is non-empty and differs
from the placeholder under the case-insensitive, whitespace-trimmed
comparison, a send-message call leaves the sessions table — in
particular that session's title — unchanged, whatever the provider
returns. -/
theorem send_message_preserves_nonplaceholder_title (db : DB) (sid msg : String)
    (env : SendEnv) (sess : ChatSession) (h : get_session db sid = some sess)
    (hne : sess.title ≠ "") (hnp : pyLower (pyStrip sess.title) ≠ "new chat") :
    (api_send_message db sid msg env).1.sessions = db.sessions := by
  have hc : titleCond sess.title = false := by
    simp [titleCond, hne, hnp]
  unfold api_send_message
  rcases hr : env.replyResult with _ | reply <;>
    simp [h, hr, titlePath_not_cond _ _ _ _ hc, add_message]

theorem send_message_preserves_title_witness :
    (api_send_message ⟨[⟨"s3", "Malaria Symptoms", 3⟩], []⟩ "s3" "more"
        ⟨some "sure", some "New Title From Provider", "u3", "a3", 4, 5⟩).1.sessions
      = [⟨"s3", "Malaria Symptoms", 3⟩] :=
  send_message_preserves_nonplaceholder_title ⟨[⟨"s3", "Malaria Symptoms", 3⟩], []⟩
    "s3" "more" ⟨some "sure", some "New Title From Provider", "u3", "a3", 4, 5⟩
    ⟨"s3", "Malaria Symptoms", 3⟩ rfl (by decide) (by decide)

/-! ### Listing messages (C8) -/

/-- C8: for every session, the list-messages operation returns exactly
the messages whose session reference equals that session's id (a
permutation of the filtered table), ordered by creation timestamp in
non-decreasing order; the HTTP handler returns that list whenever the
session exists. -/
theorem get_messages_spec (db : DB) (sid : String) :
    (get_messages db sid).Perm (db.messages.filter (fun m => m.session_id == sid)) ∧
    List.Sorted msgLE (get_messages db sid) ∧
    (∀ m ∈ get_messages db sid, m.session_id = sid) ∧
    (∀ sess, get_session db sid = some sess →
        api_messages db sid = some (get_messages db sid)) := by
  refine ⟨List.perm_insertionSort msgLE _, List.sorted_insertionSort msgLE _, ?_, ?_⟩
  · intro m hm
    have hmem : m ∈ db.messages.filter (fun m => m.session_id == sid) :=
      (List.perm_insertionSort msgLE _).mem_iff.mp hm
    simpa using List.of_mem_filter hmem
  · intro sess hs
    simp [api_messages, hs]

theorem get_messages_spec_witness :
    (⟨"mw", "sw", "user", "x", 1⟩ : ChatMessage).session_id = "sw" ∧
    api_messages ⟨[⟨"sw", "T", 0⟩], [⟨"mw", "sw", "user", "x", 1⟩]⟩ "sw"
      = some (get_messages ⟨[⟨"sw", "T", 0⟩], [⟨"mw", "sw", "user", "x", 1⟩]⟩ "sw") :=
  And.intro
    ((get_messages_spec ⟨[⟨"sw", "T", 0⟩], [⟨"mw", "sw", "user", "x", 1⟩]⟩ "sw").2.2.1
      ⟨"mw", "sw", "user", "x", 1⟩ (by decide))
    ((get_messages_spec ⟨[⟨"sw", "T", 0⟩], [⟨"mw", "sw", "user", "x", 1⟩]⟩ "sw").2.2.2
      ⟨"sw", "T", 0⟩ rfl)

/-! ### Renaming a session (C7) -/

theorem setTitleFirst_forall2 (sid t : String) (l : List ChatSession) :
    List.Forall₂ (fun old new => new = old ∨ (old.id = sid ∧ new = { old with title := t }))
      l (setTitleFirst sid t l) := by
  induction l with
  | nil => exact List.Forall₂.nil
  | cons s ss ih =>
    unfold setTitleFirst
    by_cases hs : (s.id == sid) = true
    · simp only [hs, if_true]
      refine List.Forall₂.cons (Or.inr ⟨by simpa using hs, rfl⟩) ?_
      exact List.forall₂_same.mpr (fun x _ => Or.inl rfl)
    · simp only [hs, if_false]
      exact List.Forall₂.cons (Or.inl rfl) ih

/-- C7: the rename persistence operation returns an absence signal and
leaves the store unchanged when the id is unknown; for a known id it
returns the updated record (same id and creation timestamp, new title),
leaves the messages table untouched, and rewrites the sessions table so
that each row is either unchanged or — only for the addressed id — the
same row with just its title overwritten. -/
theorem update_session_title_spec (db : DB) (sid t : String) :
    (get_session db sid = none → update_session_title db sid t = (db, none)) ∧
    (∀ sess, get_session db sid = some sess →
      (update_session_title db sid t).2 = some ⟨sess.id, t, sess.created_at⟩ ∧
      (update_session_title db sid t).1.messages = db.messages ∧
      List.Forall₂
        (fun old new => new = old ∨ (old.id = sid ∧ new = { old with title := t }))
        db.sessions (update_session_title db sid t).1.sessions) := by
  constructor
  · intro h
    simp [update_session_title, h]
  · intro sess hs
    refine ⟨?_, update_session_title_messages db sid t, ?_⟩
    · simp [update_session_title, hs]
    · simp only [update_session_title, hs]
      exact setTitleFirst_forall2 sid t db.sessions

theorem update_session_title_spec_witness :
    (update_session_title ⟨[⟨"w7", "Old", 3⟩], []⟩ "w7" "Newer").2
        = some ⟨"w7", "Newer", 3⟩ ∧
    update_session_title ⟨[], []⟩ "w7" "T" = (⟨[], []⟩, none) :=
  And.intro
    ((update_session_title_spec ⟨[⟨"w7", "Old", 3⟩], []⟩ "w7" "Newer").2
      ⟨"w7", "Old", 3⟩ rfl).1
    ((update_session_title_spec ⟨[], []⟩ "w7" "T").1 rfl)

/-! ### Creating a session (C5) -/

/-- C5: a create-session call returns the new session's id and the
placeholder title "New Chat", appends the session row, and — provided the
generated id is fresh — the new session's message list is exactly the one
synthesized assistant welcome message. -/
theorem new_session_spec (db : DB) (sessId msgId : String) (t1 t2 : Nat)
    (hfresh : ∀ m ∈ db.messages, m.session_id ≠ sessId) :
    (api_new_session db sessId msgId t1 t2).2 = (sessId, "New Chat") ∧
    (api_new_session db sessId msgId t1 t2).1.sessions
        = db.sessions ++ [⟨sessId, "New Chat", t1⟩] ∧
    (api_new_session db sessId msgId t1 t2).1.messages
        = db.messages ++ [⟨msgId, sessId, "assistant", welcome_text, t2⟩] ∧
    get_messages (api_new_session db sessId msgId t1 t2).1 sessId
        = [⟨msgId, sessId, "assistant", welcome_text, t2⟩] := by
  refine ⟨rfl, rfl, rfl, ?_⟩
  have h1 : db.messages.filter (fun m => m.session_id == sessId) = [] := by
    rw [List.filter_eq_nil_iff]
    intro m hm
    simpa using hfresh m hm
  simp [get_messages, api_new_session, create_session, add_message,
    List.filter_append, h1]

theorem new_session_spec_witness :
    (api_new_session ⟨[], []⟩ "S" "m0" 0 1).2 = ("S", "New Chat") ∧
    (api_new_session ⟨[], []⟩ "S" "m0" 0 1).1.sessions = [⟨"S", "New Chat", 0⟩] ∧
    (api_new_session ⟨[], []⟩ "S" "m0" 0 1).1.messages
        = [⟨"m0", "S", "assistant", welcome_text, 1⟩] ∧
    get_messages (api_new_session ⟨[], []⟩ "S" "m0" 0 1).1 "S"
        = [⟨"m0", "S", "assistant", welcome_text, 1⟩] := by
  have h := new_session_spec ⟨[], []⟩ "S" "m0" 0 1 (by simp)
  simpa using h

/-! ### Message count after create + one send (C9) -/

/-- C9 counterexample: running the spec's own example — create a session,
then one successful send — yields 3 stored messages for the session
(welcome, user, assistant), not the 4 the spec's example asserts. -/
theorem create_then_send_four_messages_cex :
    (get_messages
      (api_send_message (api_new_session ⟨[], []⟩ "S" "m0" 0 1).1 "S"
        "What are symptoms of malaria?"
        ⟨some "Fever, chills and headache.", some "Malaria Symptoms",
          "m1", "m2", 2, 3⟩).1 "S").length = 3 ∧
    ¬ (get_messages
      (api_send_message (api_new_session ⟨[], []⟩ "S" "m0" 0 1).1 "S"
        "What are symptoms of malaria?"
        ⟨some "Fever, chills and headache.", some "Malaria Symptoms",
          "m1", "m2", 2, 3⟩).1 "S").length = 4 := by
  constructor <;> decide

/-- C9 (amended): after creating a session with a fresh id and performing
one send-message call whose reply generation succeeds, listing that
session's messages returns 3 messages in total. -/
theorem create_then_send_message_count (db : DB) (sessId msgId : String)
    (t1 t2 : Nat) (msg : String) (env : SendEnv) (reply : String)
    (hr : env.replyResult = some reply)
    (hS : ∀ s ∈ db.sessions, s.id ≠ sessId)
    (hM : ∀ m ∈ db.messages, m.session_id ≠ sessId) :
    (get_messages
      (api_send_message (api_new_session db sessId msgId t1 t2).1 sessId msg env).1
      sessId).length = 3 := by
  have hget : get_session (api_new_session db sessId msgId t1 t2).1 sessId
      = some ⟨sessId, "New Chat", t1⟩ := by
    have hfind : db.sessions.find? (fun s => s.id == sessId) = none := by
      rw [List.find?_eq_none]
      intro s hsm
      simpa using hS s hsm
    simp [get_session, api_new_session, create_session, add_message,
      List.find?_append, hfind]
  have h2 := send_message_messages_eq (api_new_session db sessId msgId t1 t2).1
    sessId msg env ⟨sessId, "New Chat", t1⟩ hget reply hr
  have hmsgs : (api_new_session db sessId msgId t1 t2).1.messages
      = db.messages ++ [⟨msgId, sessId, "assistant", welcome_text, t2⟩] := rfl
  have h1 : db.messages.filter (fun m => m.session_id == sessId) = [] := by
    rw [List.filter_eq_nil_iff]
    intro m hm
    simpa using hM m hm
  unfold get_messages
  rw [h2, hmsgs, List.length_insertionSort]
  simp [List.filter_append, h1]

theorem create_then_send_message_count_witness :
    (get_messages
      (api_send_message (api_new_session ⟨[], []⟩ "W9" "n0" 0 1).1 "W9" "hi"
        ⟨some "hello", none, "n1", "n2", 2, 3⟩).1 "W9").length = 3 :=
  create_then_send_message_count ⟨[], []⟩ "W9" "n0" 0 1 "hi"
    ⟨some "hello", none, "n1", "n2", 2, 3⟩ "hello" rfl (by simp) (by simp)

/-! ### The auto-titling branch condition (C6 counterexample, C10) -/

/-- C6 counterexample: a session whose title is the empty string is not
the placeholder under the case-insensitive, whitespace-trimmed
comparison, yet a send-message call does change its title. -/
theorem nonplaceholder_title_changed_cex :
    ¬ (pyLower (pyStrip ("" : String)) = "new chat") ∧
    (api_send_message ⟨[⟨"s9", "", 0⟩], []⟩ "s9" "headache"
        ⟨some "Take rest.", some "Migraine Help", "u9", "a9", 1, 2⟩).1.sessions
      = [⟨"s9", "Migraine Help", 0⟩] ∧
    ¬ ((api_send_message ⟨[⟨"s9", "", 0⟩], []⟩ "s9" "headache"
        ⟨some "Take rest.", some "Migraine Help", "u9", "a9", 1, 2⟩).1.sessions
      = [⟨"s9", "", 0⟩]) :=
  ⟨by decide, by decide, by decide⟩

theorem titlePath_taken_trace (db : DB) (sid t : String) (r : Option String)
    (fu : String) (hc : titleCond t = true)
    (hfu : firstUserContent (get_messages db sid) = some fu) (hne : fu ≠ "") :
    (titlePath db sid t r).2 = [PCall.titleGen fu] := by
  have hb : (fu == "") = false := by simpa using hne
  unfold titlePath
  rw [hc]
  simp only [if_true, hfu, hb, Bool.false_eq_true, if_false]
  rcases r with _ | raw
  · rfl
  · split
    all_goals first
      | rfl
      | (split <;> rfl)

theorem firstUser_of_fresh (db : DB) (sid msg reply : String) (env : SendEnv)
    (hfresh : ∀ m ∈ db.messages, m.session_id ≠ sid) :
    firstUserContent (get_messages
      ((add_message ((add_message db sid "user" msg env.userMsgId env.userTime).1)
        sid "assistant" reply env.asstMsgId env.asstTime).1) sid) = some msg := by
  have h1 : db.messages.filter (fun m => m.session_id == sid) = [] := by
    rw [List.filter_eq_nil_iff]
    intro m hm
    simpa using hfresh m hm
  simp [get_messages, add_message, List.filter_append, h1, firstUserContent]
  split <;> simp [List.find?]

/-- C10: the auto-titling path is also attempted when the session's title
is the empty string, although the empty string is not the placeholder
under the case-insensitive, whitespace-trimmed comparison; for every
non-empty title the branch condition holds exactly when the trimmed,
lowercased title equals "new chat". -/
theorem empty_title_triggers_titling :
    (titleCond "" = true ∧ ¬ (pyLower (pyStrip "") = "new chat")) ∧
    (∀ t : String, t ≠ "" → (titleCond t = true ↔ pyLower (pyStrip t) = "new chat")) ∧
    (∀ (db : DB) (sid msg : String) (env : SendEnv) (sess : ChatSession)
        (reply : String),
      get_session db sid = some sess → sess.title = "" →
      env.replyResult = some reply → msg ≠ "" →
      (∀ m ∈ db.messages, m.session_id ≠ sid) →
      PCall.titleGen msg ∈ (api_send_message db sid msg env).2.2) := by
  refine ⟨⟨rfl, by decide⟩, ?_, ?_⟩
  · intro t ht
    simp [titleCond, ht]
  · intro db sid msg env sess reply h htitle hr hmsg hfresh
    have hc : titleCond sess.title = true := by rw [htitle]; rfl
    have hfu := firstUser_of_fresh db sid msg reply env hfresh
    have htr := titlePath_taken_trace _ sid sess.title env.titleResult msg hc hfu hmsg
    unfold api_send_message
    simp only [h, hr]
    rw [htr]
    simp

theorem empty_title_triggers_titling_witness :
    PCall.titleGen "dizzy" ∈ (api_send_message ⟨[⟨"sw", "", 0⟩], []⟩ "sw" "dizzy"
      ⟨some "See a doctor.", none, "uw", "aw", 1, 2⟩).2.2 :=
  empty_title_triggers_titling.2.2 ⟨[⟨"sw", "", 0⟩], []⟩ "sw" "dizzy"
    ⟨some "See a doctor.", none, "uw", "aw", 1, 2⟩ ⟨"sw", "", 0⟩ "See a doctor."
    rfl rfl rfl (by decide) (by simp)

/-! ### Properties of the title post-processing (for C3) -/

theorem string_eq_empty_of_data (w : String) (h : w.data = []) : w = "" := by
  cases w
  simp_all

theorem pySplitAux_nil (acc : List Char) :
    pySplitAux [] acc = if acc.isEmpty then [] else [⟨acc.reverse⟩] := by
  rw [pySplitAux]

theorem pySplitAux_cons_space (c : Char) (cs acc : List Char)
    (hc : isPySpace c = true) :
    pySplitAux (c :: cs) acc
      = if acc.isEmpty then pySplitAux cs []
        else ⟨acc.reverse⟩ :: pySplitAux cs [] := by
  conv_lhs => rw [pySplitAux]
  simp [hc]

theorem pySplitAux_cons_nonspace (c : Char) (cs acc : List Char)
    (hc : isPySpace c = false) :
    pySplitAux (c :: cs) acc = pySplitAux cs (c :: acc) := by
  conv_lhs => rw [pySplitAux]
  simp [hc]

theorem word_of_acc (acc : List Char) (hne : ¬ acc.isEmpty = true)
    (hacc : ∀ c ∈ acc, isPySpace c = false) :
    (⟨acc.reverse⟩ : String) ≠ "" ∧
      ∀ c ∈ (⟨acc.reverse⟩ : String).data, isPySpace c = false := by
  constructor
  · intro hcon
    have hdata : acc.reverse = ([] : List Char) := congrArg String.data hcon
    have hnil : acc = [] := by simpa using hdata
    simp [hnil] at hne
  · intro c hc
    exact hacc c (List.mem_reverse.mp hc)

/-- Every word produced by `pySplit` is non-empty and contains no
whitespace character. -/
theorem pySplitAux_words : ∀ (cs acc : List Char),
    (∀ c ∈ acc, isPySpace c = false) →
    ∀ w ∈ pySplitAux cs acc, w ≠ "" ∧ ∀ c ∈ w.data, isPySpace c = false := by
  intro cs
  induction cs with
  | nil =>
    intro acc hacc w hw
    rw [pySplitAux_nil] at hw
    by_cases ha : acc.isEmpty
    · simp [ha] at hw
    · simp [ha] at hw
      subst hw
      exact word_of_acc acc ha hacc
  | cons c cs ih =>
    intro acc hacc w hw
    by_cases hsp : isPySpace c
    · rw [pySplitAux_cons_space c cs acc hsp] at hw
      by_cases ha : acc.isEmpty
      · simp [ha] at hw
        exact ih [] (by simp) w hw
      · simp [ha] at hw
        rcases hw with hw | hw
        · subst hw
          exact word_of_acc acc ha hacc
        · exact ih [] (by simp) w hw
    · rw [pySplitAux_cons_nonspace c cs acc (by simpa using hsp)] at hw
      refine ih (c :: acc) ?_ w hw
      intro x hx
      rcases List.mem_cons.mp hx with hx' | hx'
      · subst hx'
        simpa using hsp
      · exact hacc x hx'

theorem pySplit_words (s : String) :
    ∀ w ∈ pySplit s, w ≠ "" ∧ ∀ c ∈ w.data, isPySpace c = false :=
  pySplitAux_words s.data [] (by simp)

theorem pySplitAux_append_word : ∀ (w : List Char),
    (∀ c ∈ w, isPySpace c = false) → ∀ (rest acc : List Char),
    pySplitAux (w ++ rest) acc = pySplitAux rest (w.reverse ++ acc) := by
  intro w
  induction w with
  | nil =>
    intro _ rest acc
    simp
  | cons c cs ih =>
    intro hw rest acc
    have hc : isPySpace c = false := hw c (by simp)
    rw [List.cons_append, pySplitAux_cons_nonspace c (cs ++ rest) acc hc,
      ih (fun x hx => hw x (List.mem_cons_of_mem c hx)) rest (c :: acc)]
    congr 1
    simp

/-- Splitting the space-join of non-empty, whitespace-free words recovers
exactly those words. -/
theorem pySplit_joinSpace : ∀ ws : List String,
    (∀ w ∈ ws, w ≠ "" ∧ ∀ c ∈ w.data, isPySpace c = false) →
    pySplit (joinSpace ws) = ws := by
  intro ws
  induction ws with
  | nil =>
    intro _
    rfl
  | cons w ws ih =>
    intro h
    have hw := h w (List.mem_cons_self w ws)
    have hdne : w.data ≠ [] := fun hnil => hw.1 (string_eq_empty_of_data w hnil)
    have hwe : (w.data.reverse).isEmpty = false := by
      simp [hdne]
    rcases ws with _ | ⟨v, vs⟩
    · show pySplit w = [w]
      unfold pySplit
      have h0 : pySplitAux w.data ([] : List Char)
          = pySplitAux (w.data ++ []) [] := by simp
      rw [h0, pySplitAux_append_word w.data hw.2 [] [], pySplitAux_nil]
      simp only [List.append_nil, hwe, Bool.false_eq_true, if_false,
        List.reverse_reverse]
    · have hdata : (joinSpace (w :: v :: vs)).data
          = w.data ++ (' ' :: (joinSpace (v :: vs)).data) := by
        show ((w ++ " ") ++ joinSpace (v :: vs)).data = _
        rw [String.data_append, String.data_append]
        simp
      unfold pySplit
      rw [hdata, pySplitAux_append_word w.data hw.2
          (' ' :: (joinSpace (v :: vs)).data) [],
        pySplitAux_cons_space ' ' _ _ rfl]
      simp only [List.append_nil, hwe, Bool.false_eq_true, if_false,
        List.reverse_reverse]
      have hrest := ih (fun u hu => h u (List.mem_cons_of_mem w hu))
      unfold pySplit at hrest
      rw [hrest]

/-- The post-processed title has at most four whitespace-separated words. -/
theorem call_llm_for_title_words_le_four (raw : String) :
    (pySplit (call_llm_for_title raw)).length ≤ 4 := by
  simp only [call_llm_for_title]
  split
  · rw [pySplit_joinSpace]
    · rw [List.length_take]
      exact Nat.min_le_left _ _
    · intro w hw
      exact pySplit_words _ w (List.take_subset 4 _ hw)
  · omega

theorem mem_data_pyStrip (s : String) (c : Char) (h : c ∈ (pyStrip s).data) :
    c ∈ s.data := by
  have h' : c ∈ ((s.data.dropWhile isPySpace).reverse.dropWhile isPySpace).reverse := h
  have h1 := List.mem_reverse.mp h'
  have h2 := (List.dropWhile_sublist isPySpace).subset h1
  have h3 := List.mem_reverse.mp h2
  exact (List.dropWhile_sublist isPySpace).subset h3

theorem mem_data_firstLine (s : String) (c : Char) (h : c ∈ (firstLine s).data) :
    c ≠ '\n' := by
  have h' : c ∈ s.data.takeWhile (fun x => x ≠ '\n') := h
  simpa using List.mem_takeWhile_imp h'

theorem joinSpace_chars : ∀ (ws : List String) (c : Char),
    c ∈ (joinSpace ws).data → (∃ w ∈ ws, c ∈ w.data) ∨ c = ' ' := by
  intro ws
  induction ws with
  | nil =>
    intro c hc
    exact absurd (show c ∈ ([] : List Char) from hc) (by simp)
  | cons w ws ih =>
    intro c hc
    rcases ws with _ | ⟨v, vs⟩
    · exact Or.inl ⟨w, by simp, hc⟩
    · have hdata : (joinSpace (w :: v :: vs)).data
          = w.data ++ (' ' :: (joinSpace (v :: vs)).data) := by
        show ((w ++ " ") ++ joinSpace (v :: vs)).data = _
        rw [String.data_append, String.data_append]
        simp
      rw [hdata] at hc
      rcases List.mem_append.mp hc with h1 | h2
      · exact Or.inl ⟨w, by simp, h1⟩
      · rcases List.mem_cons.mp h2 with h3 | h4
        · exact Or.inr h3
        · rcases ih c h4 with ⟨u, hu, hcu⟩ | hsp
          · exact Or.inl ⟨u, by simp [hu], hcu⟩
          · exact Or.inr hsp

/-- The post-processed title is confined to the reply's first line: it
contains no newline character. -/
theorem call_llm_for_title_no_newline (raw : String) :
    ∀ c ∈ (call_llm_for_title raw).data, c ≠ '\n' := by
  intro c hc
  simp only [call_llm_for_title] at hc
  by_cases hgt : (pySplit (pyStrip (firstLine (pyStrip raw)))).length > 4
  · rw [if_pos hgt] at hc
    rcases joinSpace_chars _ c hc with ⟨w, hw, hcw⟩ | hsp
    · have hws := (pySplit_words _ w (List.take_subset 4 _ hw)).2 c hcw
      intro hn
      subst hn
      simp [isPySpace] at hws
    · subst hsp
      decide
  · rw [if_neg hgt] at hc
    exact mem_data_firstLine _ c (mem_data_pyStrip _ c hc)

theorem titlePath_taken_update (db : DB) (sid t raw fu : String)
    (hc : titleCond t = true)
    (hfu : firstUserContent (get_messages db sid) = some fu) (hne : fu ≠ "")
    (hno : call_llm_for_title raw ≠ "") :
    (titlePath db sid t (some raw)).1
      = (update_session_title db sid (call_llm_for_title raw)).1 := by
  have hb : (fu == "") = false := by simpa using hne
  have hb2 : (call_llm_for_title raw == "") = false := by simpa using hno
  unfold titlePath
  rw [hc]
  simp only [if_true, hfu, hb, hb2, Bool.false_eq_true, if_false]

/-- C3 counterexample: for a session whose title is the empty string —
which does not equal the placeholder under the case-insensitive,
whitespace-trimmed comparison — the auto-titling side path is
nevertheless taken: a title-generation provider call is issued and the
title is overwritten (here also exhibiting the four-word truncation of a
five-word provider reply). -/
theorem title_path_condition_cex :
    ¬ (pyLower (pyStrip ("" : String)) = "new chat") ∧
    (api_send_message ⟨[⟨"c3", "", 10⟩], []⟩ "c3" "I caught a cold"
        ⟨some "Drink fluids.", some "Cold Remedies Overview Extra Words",
          "cu", "ca", 11, 12⟩).2.2
      = [PCall.reply "I caught a cold", PCall.titleGen "I caught a cold"] ∧
    (api_send_message ⟨[⟨"c3", "", 10⟩], []⟩ "c3" "I caught a cold"
        ⟨some "Drink fluids.", some "Cold Remedies Overview Extra Words",
          "cu", "ca", 11, 12⟩).1.sessions
      = [⟨"c3", "Cold Remedies Overview Extra", 10⟩] :=
  ⟨by decide, by decide, by decide⟩

/-- C3 (amended): the auto-titling side path is taken exactly when the
session's title is empty or equals the placeholder under the
case-insensitive, whitespace-trimmed comparison.  When the condition
fails, no title-generation call is issued and the sessions table is
untouched; when it holds and the chronologically first user-role message
has non-empty content `fu`, exactly one title-generation call on `fu` is
issued, and a successful provider reply `raw` with non-empty
post-processing overwrites the session title with `call_llm_for_title
raw` — the reply truncated to its first line (no newline survives) and
to at most four whitespace-separated words. -/
theorem send_message_title_path_spec (db : DB) (sid msg : String) (env : SendEnv)
    (sess : ChatSession) (h : get_session db sid = some sess)
    (reply : String) (hr : env.replyResult = some reply) :
    (titleCond sess.title = false →
      (api_send_message db sid msg env).2.2 = [PCall.reply msg] ∧
      (api_send_message db sid msg env).1.sessions = db.sessions) ∧
    (titleCond sess.title = true →
      ∀ fu, firstUserContent (get_messages (dbAfterMessages db sid msg reply env) sid)
          = some fu → fu ≠ "" →
        (api_send_message db sid msg env).2.2
            = [PCall.reply msg, PCall.titleGen fu] ∧
        (∀ raw, env.titleResult = some raw → call_llm_for_title raw ≠ "" →
          (api_send_message db sid msg env).1
            = (update_session_title (dbAfterMessages db sid msg reply env) sid
                (call_llm_for_title raw)).1)) ∧
    (∀ raw, (pySplit (call_llm_for_title raw)).length ≤ 4 ∧
        ∀ c ∈ (call_llm_for_title raw).data, c ≠ '\n') := by
  refine ⟨?_, ?_, fun raw => ⟨call_llm_for_title_words_le_four raw,
    call_llm_for_title_no_newline raw⟩⟩
  · intro hc
    constructor
    · unfold api_send_message
      simp only [h, hr]
      rw [titlePath_not_cond _ _ _ _ hc]
    · unfold api_send_message
      simp only [h, hr]
      rw [titlePath_not_cond _ _ _ _ hc]
      simp [add_message]
  · intro hc fu hfu hne
    have hfu' : firstUserContent (get_messages
        ((add_message ((add_message db sid "user" msg env.userMsgId env.userTime).1)
          sid "assistant" reply env.asstMsgId env.asstTime).1) sid) = some fu := hfu
    constructor
    · have htr := titlePath_taken_trace _ sid sess.title env.titleResult fu hc hfu' hne
      unfold api_send_message
      simp only [h, hr]
      rw [htr]
    · intro raw hraw hno
      have hupd := titlePath_taken_update
        ((add_message ((add_message db sid "user" msg env.userMsgId env.userTime).1)
          sid "assistant" reply env.asstMsgId env.asstTime).1) sid sess.title raw fu
        hc hfu' hne hno
      unfold api_send_message
      simp only [h, hr, hraw]
      exact hupd

theorem send_message_title_path_spec_witness :
    (api_send_message ⟨[⟨"c3w", "New Chat", 0⟩], []⟩ "c3w" "fever"
        ⟨some "Rest well.", some "Fever Advice", "wu", "wa", 1, 2⟩).2.2
      = [PCall.reply "fever", PCall.titleGen "fever"] ∧
    (api_send_message ⟨[⟨"c3w", "New Chat", 0⟩], []⟩ "c3w" "fever"
        ⟨some "Rest well.", some "Fever Advice", "wu", "wa", 1, 2⟩).1
      = (update_session_title
          (dbAfterMessages ⟨[⟨"c3w", "New Chat", 0⟩], []⟩ "c3w" "fever" "Rest well."
            ⟨some "Rest well.", some "Fever Advice", "wu", "wa", 1, 2⟩) "c3w"
          (call_llm_for_title "Fever Advice")).1 := by
  have h := (send_message_title_path_spec ⟨[⟨"c3w", "New Chat", 0⟩], []⟩ "c3w"
    "fever" ⟨some "Rest well.", some "Fever Advice", "wu", "wa", 1, 2⟩
    ⟨"c3w", "New Chat", 0⟩ rfl "Rest well." rfl).2.1 (by decide) "fever"
    (by decide) (by decide)
  exact ⟨h.1, h.2 "Fever Advice" rfl (by decide)⟩
